import Mathlib

/-!
Shallow embedding of the weather-radar backend (`src/backend/server.js`)
and verification of the spec's claims about it.

Conventions of the embedding:
* JavaScript numbers are idealised as rationals (`ℚ`); `x.toFixed(k)`
  followed by `parseFloat` is modelled as rounding to `k` decimal places
  with ties going to the larger value, exactly as ECMAScript's `toFixed`
  specifies.
* `Math.random()` is modelled as an ambient stream `rand : ℕ → ℚ` of
  draws, consumed in the order the source calls `Math.random()`; validity
  (`0 ≤ rand n < 1`) is an explicit hypothesis.
* `Math.cos` / `Math.sin` are opaque library functions; they are passed in
  as parameters, and theorems assume only that they are bounded by 1 in
  absolute value.
* Network and library effects (directory listing, file download, gunzip,
  the `grib2-simple` decoder) are supplied by an `Env` record of outcomes.
* `parseGRIB2Buffer` in the source is an `async` function.  At its call
  site (line 208) its result is NOT awaited, so the handler variable
  `radarPoints` holds a Promise on the live path.  The embedding keeps
  this distinction with the `JSData` type: `arr` for a plain array,
  `promise` for an unawaited promise; `.length` of a promise object is
  `undefined`, modelled as `none`.
-/

namespace WeatherRadar

/-! ## Numeric helpers: `parseFloat(x.toFixed(k))` -/

/-- `parseFloat(x.toFixed(k))` idealised over `ℚ`: round `x` to `k`
decimal places, ties to the larger value (ECMAScript `toFixed` picks the
larger candidate integer at a tie). -/
def toFixed (k : ℕ) (x : ℚ) : ℚ := ((round (x * 10 ^ k) : ℤ) : ℚ) / 10 ^ k

theorem toFixed_mono (k : ℕ) {x y : ℚ} (h : x ≤ y) : toFixed k x ≤ toFixed k y := by
  unfold toFixed
  have hp : (0:ℚ) < 10 ^ k := by positivity
  have hm : x * 10 ^ k ≤ y * 10 ^ k := by
    exact mul_le_mul_of_nonneg_right h (le_of_lt hp)
  have : round (x * 10 ^ k) ≤ round (y * 10 ^ k) := by
    rw [round_eq, round_eq]
    exact Int.floor_mono (by linarith)
  have : ((round (x * 10 ^ k) : ℤ) : ℚ) ≤ ((round (y * 10 ^ k) : ℤ) : ℚ) := by
    exact_mod_cast this
  exact div_le_div_of_nonneg_right this hp.le

theorem toFixed_intCast (k : ℕ) (m : ℤ) : toFixed k (m : ℚ) = m := by
  unfold toFixed
  have h1 : ((m : ℚ)) * 10 ^ k = ((m * 10 ^ k : ℤ) : ℚ) := by push_cast; ring
  rw [h1, round_intCast]
  have hp : ((10:ℚ)) ^ k ≠ 0 := by positivity
  push_cast
  field_simp

/-- Rounding to `k` decimals maps an interval with integer endpoints into
itself. -/
theorem toFixed_bounds (k : ℕ) {x : ℚ} {a b : ℤ} (h1 : (a:ℚ) ≤ x) (h2 : x ≤ (b:ℚ)) :
    (a:ℚ) ≤ toFixed k x ∧ toFixed k x ≤ (b:ℚ) := by
  constructor
  · have := toFixed_mono k h1
    rwa [toFixed_intCast] at this
  · have := toFixed_mono k h2
    rwa [toFixed_intCast] at this

/-- Evaluating `toFixed` at a concrete argument: if `m` is the integer
with `m ≤ x * 10^k + 1/2 < m + 1` then rounding yields `m / 10^k`. -/
theorem toFixed_eval (k : ℕ) (x : ℚ) (m : ℤ) (h1 : (m:ℚ) ≤ x * 10 ^ k + 1/2)
    (h2 : x * 10 ^ k + 1/2 < (m:ℚ) + 1) : toFixed k x = (m:ℚ) / 10 ^ k := by
  unfold toFixed
  rw [round_eq, Int.floor_eq_iff.mpr ⟨h1, h2⟩]

/-- Inverting `toFixed`: if the rounded value is `m / 10^k` then the raw
value was within half a unit in the last place. -/
theorem toFixed_eq_imp (k : ℕ) {x : ℚ} {m : ℤ} (h : toFixed k x = (m:ℚ) / 10 ^ k) :
    (m:ℚ) - 1/2 ≤ x * 10 ^ k ∧ x * 10 ^ k < (m:ℚ) + 1/2 := by
  have hp : (0:ℚ) < 10 ^ k := by positivity
  have hr : ((round (x * 10 ^ k) : ℤ) : ℚ) = (m:ℚ) := by
    unfold toFixed at h
    field_simp at h
    exact_mod_cast h
  have hr2 : round (x * 10 ^ k) = m := by exact_mod_cast hr
  constructor
  · have := round_le_add_half (x * 10 ^ k)
    rw [hr2] at this
    linarith
  · have := sub_half_lt_round (x * 10 ^ k)
    rw [hr2] at this
    linarith

/-! ## Data model -/

/-- One geolocated reflectivity sample (an element of the `points` arrays
built in `parseGRIB2Buffer` and `generateFallbackData`). -/
structure Sample where
  lat : ℚ
  lon : ℚ
  value : ℚ
deriving DecidableEq, Repr

/-! ## Fallback generator (`generateFallbackData`, server.js lines 148-186) -/

/-- One storm-centre record from the `stormCenters` array. -/
structure Storm where
  lat : ℚ
  lon : ℚ
  intensity : ℚ
  radius : ℚ
deriving DecidableEq, Repr

/-- The five hard-coded storm centres (server.js lines 152-158). -/
def stormCenters : List Storm :=
  [⟨35.5, -97.5, 55, 2.5⟩,
   ⟨30.2, -81.6, 45, 2⟩,
   ⟨41.8, -87.6, 40, 1.8⟩,
   ⟨33.7, -84.4, 50, 2.2⟩,
   ⟨29.7, -95.3, 38, 1.5⟩]

/-- `Math.PI`, the IEEE-754 double closest to π, as an exact rational. -/
def jsPI : ℚ := 884279719003555 / 281474976710656

/-- `Math.max(5, Math.min(75, v))` (server.js line 167). -/
def clamp575 (v : ℚ) : ℚ := max 5 (min 75 v)

/-- One storm point (loop body, server.js lines 161-174).  `base` is the
index into the random stream of the `Math.random()` call computing
`distance`; the noise draw is the following call. -/
def stormPoint (rand : ℕ → ℚ) (c s : ℚ → ℚ) (base : ℕ) (storm : Storm) (i : ℕ) :
    Sample :=
  let angle := jsPI * 2 * (i:ℚ) / 80
  let distance := rand base * storm.radius
  let lat := storm.lat + distance * c angle
  let lon := storm.lon + distance * s angle
  let distanceFactor := 1 - distance / storm.radius
  let value := clamp575 (storm.intensity * distanceFactor + (rand (base + 1) - 1/2) * 15)
  ⟨toFixed 4 lat, toFixed 4 lon, toFixed 1 value⟩

/-- The 80 points of one storm centre; `es.1` is the storm's position in
`stormCenters`, fixing which random draws it consumes. -/
def stormPointsFor (rand : ℕ → ℚ) (c s : ℚ → ℚ) (es : ℕ × Storm) : List Sample :=
  (List.range 80).map fun i => stormPoint rand c s (2 * (80 * es.1 + i)) es.2 i

/-- All 400 storm points (the `stormCenters.forEach` loop). -/
def stormPoints (rand : ℕ → ℚ) (c s : ℚ → ℚ) : List Sample :=
  stormCenters.enum.flatMap (stormPointsFor rand c s)

/-- The 150 background points (server.js lines 177-183).  The three
`Math.random()` calls per point happen in field order lat, lon, value,
after the 800 draws of the storm loop. -/
def backgroundPoints (rand : ℕ → ℚ) : List Sample :=
  (List.range 150).map fun i =>
    ⟨toFixed 4 (25 + rand (800 + 3 * i) * 25),
     toFixed 4 (-125 + rand (800 + 3 * i + 1) * 55),
     toFixed 1 (5 + rand (800 + 3 * i + 2) * 20)⟩

/-- `generateFallbackData` (server.js lines 148-186). -/
def generateFallbackData (rand : ℕ → ℚ) (c s : ℚ → ℚ) : List Sample :=
  stormPoints rand c s ++ backgroundPoints rand

/-- Validity of the random stream: every `Math.random()` draw lies in
`[0, 1)`. -/
def validRand (rand : ℕ → ℚ) : Prop := ∀ n, 0 ≤ rand n ∧ rand n < 1

/-- The only property of `Math.cos` / `Math.sin` the code relies on:
bounded by 1 in absolute value. -/
def boundedTrig (f : ℚ → ℚ) : Prop := ∀ x, -1 ≤ f x ∧ f x ≤ 1

/-! ## Remote directory scanner (`fetchLatestMRMSFile`, server.js lines 26-51) -/

/-- The resolved remote file (server.js line 47). -/
structure FileRef where
  filename : String
  isCompressed : Bool
deriving DecidableEq, Repr

/-- The filename pattern
`MRMS_ReflectivityAtLowestAltitude_\d{8}-\d{6}\.grib2(\.gz)?`
(server.js line 35): an 8-digit date, a hyphen, a 6-digit time, the
`.grib2` extension, optionally followed by `.gz`. -/
def matchesMRMSPattern (f : String) : Prop :=
  ∃ d8 t6 : List Char, ∃ suffix : String,
    d8.length = 8 ∧ (∀ ch ∈ d8, ch.isDigit) ∧
    t6.length = 6 ∧ (∀ ch ∈ t6, ch.isDigit) ∧
    (suffix = "" ∨ suffix = ".gz") ∧
    f = "MRMS_ReflectivityAtLowestAltitude_" ++ ⟨d8⟩ ++ "-" ++ ⟨t6⟩ ++ ".grib2" ++ suffix

/-! ## Outcome environment for the effectful pipeline

Network transfers and the external `grib2-simple` decoder are effects; an
`Env` records their outcomes for one request so the handler becomes a
pure function of the environment. -/

/-- One decoded GRIB2 message, as consumed by `parseGRIB2Buffer`
(server.js lines 93-99): optional `header.ni` / `header.nj` dimensions
and the flat value array `message.data`.  JavaScript `||` treats both
`undefined` and `0` as absent. -/
structure GribMessage where
  ni : Option ℕ
  nj : Option ℕ
  data : List ℚ
deriving DecidableEq, Repr

/-- JavaScript `v || dflt` on an optional numeric header field: `dflt`
when the field is `undefined` or `0` (both falsy). -/
def jsOr (v : Option ℕ) (dflt : ℕ) : ℕ :=
  match v with
  | none => dflt
  | some n => if n = 0 then dflt else n

/-- Outcomes of the external effects during one request.  `Except.error`
models a rejected promise (network failure, timeout, gunzip error, or a
`grib2-simple` rejection). -/
structure Env where
  /-- Directory listing: transport failure, or the list of filenames the
  regex extracted from the listing body (`allFiles`, server.js line 35). -/
  listing : Except Unit (List String)
  /-- File download: transport failure, or the raw downloaded bytes. -/
  download : Except Unit (List ℕ)
  /-- `zlib.gunzip`: applied to the raw bytes when the file is compressed. -/
  gunzip : List ℕ → Except Unit (List ℕ)
  /-- `grib2.parseBuffer`: the external decoder, yielding messages or a
  rejection. -/
  grib : List ℕ → Except String (List GribMessage)
  /-- `Math.random()` draws, in call order. -/
  rand : ℕ → ℚ
  /-- `Math.cos`. -/
  jsCos : ℚ → ℚ
  /-- `Math.sin`. -/
  jsSin : ℚ → ℚ
  /-- `new Date().toISOString().replace(...)...` — the current wall-clock
  time formatted as `YYYYMMDD-HHMMSS` (server.js line 218). -/
  nowString : String

/-- `filename.endsWith('.gz')` (server.js line 44), expressed as a
suffix test on the character list. -/
def jsEndsWithGz (f : String) : Bool := [ '.', 'g', 'z'].isSuffixOf f.data

/-- `fetchLatestMRMSFile` (server.js lines 26-51): fail on transport
error; fail with `No MRMS files found` on an empty match list; otherwise
sort ascending (JavaScript default string sort: lexicographic by
character code, which Mathlib's `String` order models for these ASCII
names), reverse, take the first, and flag compression by the `.gz`
suffix. -/
def fetchLatestMRMSFile (env : Env) : Except String FileRef :=
  match env.listing with
  | .error _ => .error "transport error"
  | .ok allFiles =>
    if allFiles.isEmpty then .error "No MRMS files found"
    else
      let latestFile := ((List.insertionSort (· ≤ ·) allFiles).reverse).headD ""
      .ok ⟨latestFile, jsEndsWithGz latestFile⟩

/-- `downloadMRMSFile` (server.js lines 54-76): fail on transport error;
gunzip the buffer when `isCompressed`, otherwise return it as is. -/
def downloadMRMSFile (env : Env) (ref : FileRef) : Except String (List ℕ) :=
  match env.download with
  | .error _ => .error "transport error"
  | .ok buffer =>
    if ref.isCompressed then
      match env.gunzip buffer with
      | .error _ => .error "gunzip error"
      | .ok decompressed => .ok decompressed
    else .ok buffer

/-! ## Grid-to-samples projector (`parseGRIB2Buffer`, server.js lines 78-145) -/

/-- The sampling loop of `parseGRIB2Buffer` (server.js lines 96-136):
stride 25 over rows and columns, defensive bound check on the flat
index, strict value filter `value > 5 && value < 80`, then emission of a
rounded `(lat, lon, value)` sample. -/
def parseGRIB2Points (msg : GribMessage) : List Sample :=
  let ni := jsOr msg.ni 7000
  let nj := jsOr msg.nj 3500
  let latStep : ℚ := (55 - 20) / nj
  let lonStep : ℚ := (-60 - -130) / ni
  ((List.range ((nj + 24) / 25)).map (· * 25)).flatMap fun j =>
    ((List.range ((ni + 24) / 25)).map (· * 25)).filterMap fun i =>
      let index := j * ni + i
      if index < msg.data.length then
        let value := msg.data.getD index 0
        if 5 < value ∧ value < 80 then
          some ⟨toFixed 4 (20 + j * latStep), toFixed 4 (-130 + i * lonStep),
                toFixed 1 value⟩
        else none
      else none

/-- `parseGRIB2Buffer` (server.js lines 78-145), an `async` function:
reject when the decoder rejects or produces no messages, otherwise
project the first message. -/
def parseGRIB2Buffer (env : Env) (buffer : List ℕ) : Except String (List Sample) :=
  match env.grib buffer with
  | .error e => .error ("Failed to parse GRIB2 data: " ++ e)
  | .ok [] => .error "Failed to parse GRIB2 data: No data messages found in GRIB2 file"
  | .ok (message :: _) => .ok (parseGRIB2Points message)

/-! ## Timestamp extraction (`filename.match(/\d{8}-\d{6}/)`, server.js line 210) -/

/-- Does `\d{8}-\d{6}` match at the start of `l`?  If so, return the 15
matched characters. -/
def tsAt (l : List Char) : Option (List Char) :=
  if (l.take 8).length = 8 ∧ (l.take 8).all Char.isDigit ∧
     (l.drop 8).take 1 = ['-'] ∧
     ((l.drop 9).take 6).length = 6 ∧ ((l.drop 9).take 6).all Char.isDigit
  then some (l.take 8 ++ ['-'] ++ (l.drop 9).take 6)
  else none

/-- Leftmost match of `\d{8}-\d{6}` in a character list. -/
def findTs : List Char → Option (List Char)
  | [] => none
  | ch :: rest =>
    match tsAt (ch :: rest) with
    | some m => some m
    | none => findTs rest

/-- `filename.match(/\d{8}-\d{6}/)` followed by `[0]`: `none` models a
`null` match result (so that indexing `[0]` would throw). -/
def jsMatchTimestamp (f : String) : Option String :=
  (findTs f.data).map fun l => ⟨l⟩

/-! ## Snapshot, cache state, and the request handlers -/

/-- The value of the handler variable `radarPoints`: a plain array on
the fallback path, an unawaited promise on the live path (server.js line
208 calls the `async` function `parseGRIB2Buffer` without `await`). -/
inductive JSData where
  | arr (samples : List Sample)
  | promise (result : Except String (List Sample))
deriving Repr

/-- JavaScript `.length`: array length, or `undefined` (modelled `none`)
on a promise object. -/
def jsLength : JSData → Option ℕ
  | .arr samples => some samples.length
  | .promise _ => none

/-- The cached / served object (server.js lines 222-227).  `count` is
`Option` because `radarPoints.length` is `undefined` when `radarPoints`
is a promise. -/
structure Snapshot where
  timestamp : String
  data : JSData
  count : Option ℕ
  source : String
deriving Repr

/-- The module-level mutable state (server.js lines 21-22). -/
structure ServerState where
  cachedData : Option Snapshot
  lastFetchTime : ℤ
deriving Repr

/-- `CACHE_DURATION` (server.js line 23). -/
def CACHE_DURATION : ℤ := 120000

/-- The `try` block of the live path (server.js lines 200-212): scanner,
fetcher, then the UNAWAITED `parseGRIB2Buffer` call and the timestamp
extraction.  Any rejection of an awaited step, or a thrown `TypeError`
from `match(...)[0]` on `null`, lands in the `catch`. -/
def livePath (env : Env) : Except String (JSData × String) := do
  let ref ← fetchLatestMRMSFile env
  let buffer ← downloadMRMSFile env ref
  let radarPoints := JSData.promise (parseGRIB2Buffer env buffer)
  match jsMatchTimestamp ref.filename with
  | some timestamp => pure (radarPoints, timestamp)
  | none => .error "TypeError: cannot read 0 of null"

/-- Build the fresh snapshot (server.js lines 196-227): live attempt,
falling back to `generateFallbackData` on a caught error. -/
def freshSnapshot (env : Env) : Snapshot :=
  match livePath env with
  | .ok (radarPoints, timestamp) =>
    { timestamp := timestamp, data := radarPoints,
      count := jsLength radarPoints, source := "MRMS RALA (Live)" }
  | .error _ =>
    let radarPoints := JSData.arr (generateFallbackData env.rand env.jsCos env.jsSin)
    { timestamp := env.nowString, data := radarPoints,
      count := jsLength radarPoints, source := "Generated (MRMS unavailable)" }

/-- `GET /api/radar/latest` (server.js lines 188-238): serve the cache
when present and fresh, otherwise run the pipeline and overwrite the
cache slot with the new snapshot and the request's `now`. -/
def radarHandler (env : Env) (st : ServerState) (now : ℤ) :
    Snapshot × ServerState :=
  match st.cachedData with
  | some snap =>
    if now - st.lastFetchTime < CACHE_DURATION then (snap, st)
    else
      let fresh := freshSnapshot env
      (fresh, ⟨some fresh, now⟩)
  | none =>
    let fresh := freshSnapshot env
    (fresh, ⟨some fresh, now⟩)

/-- Response body of `GET /api/health` (server.js lines 240-247). -/
structure HealthResponse where
  status : String
  timestamp : String
  cached : Bool
  cacheAge : Option ℤ
deriving DecidableEq, Repr

/-- `GET /api/health` (server.js lines 240-247): report whether a
snapshot is cached and its age in whole seconds; read-only on the
state. -/
def healthHandler (st : ServerState) (now : ℤ) (nowIso : String) :
    HealthResponse × ServerState :=
  ({ status := "ok", timestamp := nowIso,
     cached := st.cachedData.isSome,
     cacheAge := if st.cachedData.isSome
                 then some ⌊((now - st.lastFetchTime : ℤ) : ℚ) / 1000⌋
                 else none }, st)

/-! ## Lemmas about the fallback generator -/

theorem clamp575_mem (v : ℚ) : 5 ≤ clamp575 v ∧ clamp575 v ≤ 75 := by
  unfold clamp575
  refine ⟨le_max_left _ _, max_le (by norm_num) ?_⟩
  exact min_le_left _ _

theorem clamp575_le_max (v : ℚ) : clamp575 v ≤ max 5 v := by
  unfold clamp575
  exact max_le_max le_rfl (min_le_right _ _)

/-- Geometric facts about every hard-coded storm centre: positive
radius, and the disc of that radius stays inside the CONUS bounding
box. -/
def goodStorm (storm : Storm) : Prop :=
  0 < storm.radius ∧
  20 ≤ storm.lat - storm.radius ∧ storm.lat + storm.radius ≤ 55 ∧
  -130 ≤ storm.lon - storm.radius ∧ storm.lon + storm.radius ≤ -60

theorem stormCenters_enum : stormCenters.enum =
    [(0, ⟨35.5, -97.5, 55, 2.5⟩),
     (1, ⟨30.2, -81.6, 45, 2⟩),
     (2, ⟨41.8, -87.6, 40, 1.8⟩),
     (3, ⟨33.7, -84.4, 50, 2.2⟩),
     (4, ⟨29.7, -95.3, 38, 1.5⟩)] := rfl

theorem stormCenters_good : ∀ es ∈ stormCenters.enum, goodStorm es.2 := by
  intro es hes
  rw [stormCenters_enum] at hes
  simp only [List.mem_cons, List.not_mem_nil, or_false] at hes
  rcases hes with h | h | h | h | h <;> subst h <;>
    exact ⟨by norm_num, by norm_num, by norm_num, by norm_num, by norm_num⟩

theorem mem_stormPointsFor {rand : ℕ → ℚ} {c s : ℚ → ℚ} {es : ℕ × Storm}
    {p : Sample} (h : p ∈ stormPointsFor rand c s es) :
    ∃ i, i < 80 ∧ p = stormPoint rand c s (2 * (80 * es.1 + i)) es.2 i := by
  unfold stormPointsFor at h
  rw [List.mem_map] at h
  obtain ⟨i, hi, hp⟩ := h
  exact ⟨i, List.mem_range.mp hi, hp.symm⟩

theorem mem_backgroundPoints {rand : ℕ → ℚ} {p : Sample}
    (h : p ∈ backgroundPoints rand) :
    ∃ i, i < 150 ∧
      p = ⟨toFixed 4 (25 + rand (800 + 3 * i) * 25),
           toFixed 4 (-125 + rand (800 + 3 * i + 1) * 55),
           toFixed 1 (5 + rand (800 + 3 * i + 2) * 20)⟩ := by
  unfold backgroundPoints at h
  rw [List.mem_map] at h
  obtain ⟨i, hi, hp⟩ := h
  exact ⟨i, List.mem_range.mp hi, hp.symm⟩

/-- A random deviation of at most the radius in each coordinate keeps a
storm point's raw coordinates inside the storm's disc bounds, and its
value inside `[5, 75]`. -/
theorem stormPoint_bounds {rand : ℕ → ℚ} {c s : ℚ → ℚ}
    (hr : validRand rand) (hc : boundedTrig c) (hs : boundedTrig s)
    {storm : Storm} (hg : goodStorm storm) (base : ℕ) (i : ℕ) :
    20 ≤ (stormPoint rand c s base storm i).lat ∧
    (stormPoint rand c s base storm i).lat ≤ 55 ∧
    -130 ≤ (stormPoint rand c s base storm i).lon ∧
    (stormPoint rand c s base storm i).lon ≤ -60 ∧
    5 ≤ (stormPoint rand c s base storm i).value ∧
    (stormPoint rand c s base storm i).value ≤ 75 := by
  obtain ⟨hrad, hg1, hg2, hg3, hg4⟩ := hg
  obtain ⟨hr0, hr1⟩ := hr base
  set angle := jsPI * 2 * (i:ℚ) / 80 with hangle
  set d := rand base * storm.radius with hd
  have hd0 : 0 ≤ d := mul_nonneg hr0 hrad.le
  have hdr : d ≤ storm.radius := by
    rw [hd]
    nlinarith
  have hcb := hc angle
  have hsb := hs angle
  have hclat : storm.lat - storm.radius ≤ storm.lat + d * c angle ∧
      storm.lat + d * c angle ≤ storm.lat + storm.radius := by
    constructor <;> nlinarith [hcb.1, hcb.2]
  have hclon : storm.lon - storm.radius ≤ storm.lon + d * s angle ∧
      storm.lon + d * s angle ≤ storm.lon + storm.radius := by
    constructor <;> nlinarith [hsb.1, hsb.2]
  have hlat := toFixed_bounds 4 (a := 20) (b := 55)
    (x := storm.lat + d * c angle) (by push_cast; linarith) (by push_cast; linarith)
  have hlon := toFixed_bounds 4 (a := -130) (b := -60)
    (x := storm.lon + d * s angle) (by push_cast; linarith) (by push_cast; linarith)
  have hcl := clamp575_mem (storm.intensity * (1 - d / storm.radius) +
    (rand (base + 1) - 1/2) * 15)
  have hval := toFixed_bounds 1 (a := 5) (b := 75)
    (x := clamp575 (storm.intensity * (1 - d / storm.radius) +
      (rand (base + 1) - 1/2) * 15)) (by push_cast; linarith [hcl.1]) (by push_cast; linarith [hcl.2])
  unfold stormPoint
  push_cast at hlat hlon hval
  exact ⟨hlat.1, hlat.2, hlon.1, hlon.2, hval.1, hval.2⟩

/-- Raw background coordinates land in the sub-box `[25,50] × [-125,-70]`
with values in `[5,25]`. -/
theorem backgroundPoint_bounds {rand : ℕ → ℚ} (hr : validRand rand)
    {p : Sample} (hp : p ∈ backgroundPoints rand) :
    25 ≤ p.lat ∧ p.lat ≤ 50 ∧ -125 ≤ p.lon ∧ p.lon ≤ -70 ∧
    5 ≤ p.value ∧ p.value ≤ 25 := by
  obtain ⟨i, _, hpe⟩ := mem_backgroundPoints hp
  obtain ⟨ha0, ha1⟩ := hr (800 + 3 * i)
  obtain ⟨hb0, hb1⟩ := hr (800 + 3 * i + 1)
  obtain ⟨hc0, hc1⟩ := hr (800 + 3 * i + 2)
  subst hpe
  have hlat := toFixed_bounds 4 (a := 25) (b := 50)
    (x := 25 + rand (800 + 3 * i) * 25) (by push_cast; linarith) (by push_cast; linarith)
  have hlon := toFixed_bounds 4 (a := -125) (b := -70)
    (x := -125 + rand (800 + 3 * i + 1) * 55) (by push_cast; linarith) (by push_cast; linarith)
  have hval := toFixed_bounds 1 (a := 5) (b := 25)
    (x := 5 + rand (800 + 3 * i + 2) * 20) (by push_cast; linarith) (by push_cast; linarith)
  push_cast at hlat hlon hval
  exact ⟨hlat.1, hlat.2, hlon.1, hlon.2, hval.1, hval.2⟩

theorem length_stormPoints (rand : ℕ → ℚ) (c s : ℚ → ℚ) :
    (stormPoints rand c s).length = 400 := by
  rw [stormPoints, stormCenters_enum]
  simp [stormPointsFor]

theorem length_backgroundPoints (rand : ℕ → ℚ) :
    (backgroundPoints rand).length = 150 := by
  simp [backgroundPoints]

/-- **C6** For every execution of its pseudo-random source, the Fallback
Generator produces exactly 550 samples (5 storm centers times 80 points
each, plus 150 background points), each with coordinates inside the
bounding box [20, 55] latitude by [-130, -60] longitude, and with value
in [5, 75] for storm points and in [5, 25] for background points. -/
theorem C6_fallback_count_and_ranges (rand : ℕ → ℚ) (c s : ℚ → ℚ)
    (hr : validRand rand) (hc : boundedTrig c) (hs : boundedTrig s) :
    (generateFallbackData rand c s).length = 550 ∧
    (∀ p ∈ generateFallbackData rand c s,
      20 ≤ p.lat ∧ p.lat ≤ 55 ∧ -130 ≤ p.lon ∧ p.lon ≤ -60) ∧
    (∀ p ∈ stormPoints rand c s, 5 ≤ p.value ∧ p.value ≤ 75) ∧
    (∀ p ∈ backgroundPoints rand, 5 ≤ p.value ∧ p.value ≤ 25) := by
  have hstorm : ∀ p ∈ stormPoints rand c s,
      20 ≤ p.lat ∧ p.lat ≤ 55 ∧ -130 ≤ p.lon ∧ p.lon ≤ -60 ∧
      5 ≤ p.value ∧ p.value ≤ 75 := by
    intro p hp
    rw [stormPoints, List.mem_flatMap] at hp
    obtain ⟨es, hes, hpf⟩ := hp
    obtain ⟨i, _, hpe⟩ := mem_stormPointsFor hpf
    subst hpe
    exact stormPoint_bounds hr hc hs (stormCenters_good es hes) _ _
  refine ⟨?_, ?_, ?_, ?_⟩
  · unfold generateFallbackData
    rw [List.length_append, length_stormPoints, length_backgroundPoints]
  · intro p hp
    unfold generateFallbackData at hp
    rw [List.mem_append] at hp
    rcases hp with hp | hp
    · obtain ⟨h1, h2, h3, h4, _, _⟩ := hstorm p hp
      exact ⟨h1, h2, h3, h4⟩
    · obtain ⟨h1, h2, h3, h4, _, _⟩ := backgroundPoint_bounds hr hp
      exact ⟨by linarith, by linarith, by linarith, by linarith⟩
  · intro p hp
    obtain ⟨_, _, _, _, h5, h6⟩ := hstorm p hp
    exact ⟨h5, h6⟩
  · intro p hp
    obtain ⟨_, _, _, _, h5, h6⟩ := backgroundPoint_bounds hr hp
    exact ⟨h5, h6⟩

/-- Witness for C6: the hypotheses hold at a concrete random stream and
concrete trig functions. -/
theorem C6_fallback_count_and_ranges_witness :
    (generateFallbackData (fun _ => 0) (fun _ => 1) (fun _ => 0)).length = 550 ∧
    (∀ p ∈ generateFallbackData (fun _ => 0) (fun _ => 1) (fun _ => 0),
      20 ≤ p.lat ∧ p.lat ≤ 55 ∧ -130 ≤ p.lon ∧ p.lon ≤ -60) ∧
    (∀ p ∈ stormPoints (fun _ => 0) (fun _ => 1) (fun _ => 0),
      5 ≤ p.value ∧ p.value ≤ 75) ∧
    (∀ p ∈ backgroundPoints (fun _ => 0), 5 ≤ p.value ∧ p.value ≤ 25) :=
  C6_fallback_count_and_ranges (fun _ => 0) (fun _ => 1) (fun _ => 0)
    (by intro n; norm_num) (by intro x; norm_num) (by intro x; norm_num)

/-! ## C7: the per-storm point formula -/

/-- The claim's description of one storm point, taken verbatim from the
spec: placed at some angle and some distance `d` within the radius, and
the stored value EQUALS `peakIntensity * (1 - d/radius) + noise` with
noise in `[-7.5, 7.5]`, clamped to `[5, 75]` (no rounding step). -/
def stormPointSpecClaimed (c s : ℚ → ℚ) (storm : Storm) (p : Sample) : Prop :=
  ∃ d θ noise, 0 ≤ d ∧ d < storm.radius ∧ -(15/2) ≤ noise ∧ noise ≤ 15/2 ∧
    p.lat = toFixed 4 (storm.lat + d * c θ) ∧
    p.lon = toFixed 4 (storm.lon + d * s θ) ∧
    p.value = clamp575 (storm.intensity * (1 - d / storm.radius) + noise)

/-- What the code actually stores for one storm point: the same formula,
but the clamped value is rounded to 1 decimal before storage
(`parseFloat(value.toFixed(1))`, server.js line 172). -/
def stormPointSpecRounded (c s : ℚ → ℚ) (storm : Storm) (p : Sample) : Prop :=
  ∃ d θ noise, 0 ≤ d ∧ d < storm.radius ∧ -(15/2) ≤ noise ∧ noise ≤ 15/2 ∧
    p.lat = toFixed 4 (storm.lat + d * c θ) ∧
    p.lon = toFixed 4 (storm.lon + d * s θ) ∧
    p.value = toFixed 1 (clamp575 (storm.intensity * (1 - d / storm.radius) + noise))

/-- Unfolding a storm point to its record of rounded fields. -/
theorem stormPoint_eq (rand : ℕ → ℚ) (c s : ℚ → ℚ) (base : ℕ) (storm : Storm)
    (i : ℕ) :
    stormPoint rand c s base storm i =
      ⟨toFixed 4 (storm.lat + rand base * storm.radius * c (jsPI * 2 * (i:ℚ) / 80)),
       toFixed 4 (storm.lon + rand base * storm.radius * s (jsPI * 2 * (i:ℚ) / 80)),
       toFixed 1 (clamp575 (storm.intensity * (1 - rand base * storm.radius / storm.radius) +
         (rand (base + 1) - 1/2) * 15))⟩ := rfl

/-- **C7 (amended)** For each storm center, the Fallback Generator emits
exactly 80 points placed at an angle and a random radius within the
center's radius bound, and each point's value equals
`peakIntensity * (1 - distance/radius)` plus uniform noise in
`[-7.5, +7.5]`, clamped to `[5, 75]` **and then rounded to 1 decimal
place**. -/
theorem C7_storm_points (rand : ℕ → ℚ) (c s : ℚ → ℚ) (hr : validRand rand) :
    ∀ es ∈ stormCenters.enum,
      (stormPointsFor rand c s es).length = 80 ∧
      ∀ p ∈ stormPointsFor rand c s es, stormPointSpecRounded c s es.2 p := by
  intro es hes
  have hrad : 0 < es.2.radius := (stormCenters_good es hes).1
  refine ⟨by simp [stormPointsFor], ?_⟩
  intro p hp
  obtain ⟨i, _, hpe⟩ := mem_stormPointsFor hp
  subst hpe
  obtain ⟨hr0, hr1⟩ := hr (2 * (80 * es.1 + i))
  obtain ⟨hn0, hn1⟩ := hr (2 * (80 * es.1 + i) + 1)
  refine ⟨rand (2 * (80 * es.1 + i)) * es.2.radius, jsPI * 2 * (i:ℚ) / 80,
    (rand (2 * (80 * es.1 + i) + 1) - 1/2) * 15,
    mul_nonneg hr0 hrad.le, ?_, by linarith, by linarith, rfl, rfl, rfl⟩
  exact mul_lt_of_lt_one_left hrad hr1

/-- Witness for C7: the amended statement at a concrete stream, for the
first storm center. -/
theorem C7_storm_points_witness :
    (stormPointsFor (fun _ => 0) (fun _ => 1) (fun _ => 0)
        (0, ⟨35.5, -97.5, 55, 2.5⟩)).length = 80 ∧
    ∀ p ∈ stormPointsFor (fun _ => 0) (fun _ => 1) (fun _ => 0)
        (0, ⟨35.5, -97.5, 55, 2.5⟩),
      stormPointSpecRounded (fun _ => 1) (fun _ => 0) ⟨35.5, -97.5, 55, 2.5⟩ p :=
  C7_storm_points (fun _ => 0) (fun _ => 1) (fun _ => 0)
    (by intro n; norm_num) (0, ⟨35.5, -97.5, 55, 2.5⟩)
    (by rw [stormCenters_enum]; exact List.mem_cons_self _ _)

/-- Counterexample for C7 as stated: with a valid random stream whose
first two draws are `24773/27500` and `7499/7500`, the very first
generated point has stored value 13.0 (the rounded value), but `13`
cannot be written as `clamp(55 * (1 - d/2.5) + noise)` for the point's
placement distance `d` and any noise in `[-7.5, 7.5]`: the unrounded
formula caps at about `12.955` there.  So the claim's exact (unrounded)
value equation is false on the code. -/
theorem C7_counterexample :
    validRand (fun n => if n = 0 then 24773/27500 else if n = 1 then 7499/7500 else 0) ∧
    (generateFallbackData
        (fun n => if n = 0 then 24773/27500 else if n = 1 then 7499/7500 else 0)
        (fun _ => 1) (fun _ => 0)).headD ⟨0, 0, 0⟩ =
      ⟨377521/10000, -195/2, 13⟩ ∧
    ¬ stormPointSpecClaimed (fun _ => 1) (fun _ => 0) ⟨35.5, -97.5, 55, 2.5⟩
        ⟨377521/10000, -195/2, 13⟩ := by
  refine ⟨by intro n; dsimp only; split <;> [norm_num; (split <;> norm_num)], ?_, ?_⟩
  · have h0 : (generateFallbackData
        (fun n => if n = 0 then 24773/27500 else if n = 1 then 7499/7500 else 0)
        (fun _ => 1) (fun _ => 0)).headD ⟨0, 0, 0⟩ =
        stormPoint (fun n => if n = 0 then 24773/27500 else if n = 1 then 7499/7500 else 0)
          (fun _ => 1) (fun _ => 0) 0 ⟨35.5, -97.5, 55, 2.5⟩ 0 := rfl
    rw [h0, stormPoint_eq]
    norm_num [Sample.mk.injEq]
    refine ⟨?_, ?_, ?_⟩
    · have := toFixed_eval 4 ((415273:ℚ)/11000) 377521 (by norm_num) (by norm_num)
      rw [this]; norm_num
    · have := toFixed_eval 4 (-((195:ℚ)/2)) (-975000) (by norm_num) (by norm_num)
      rw [this]; norm_num
    · have hc : clamp575 ((1619:ℚ)/125) = 1619/125 := by
        unfold clamp575
        rw [min_eq_right (by norm_num), max_eq_right (by norm_num)]
      rw [hc]
      have := toFixed_eval 1 ((1619:ℚ)/125) 130 (by norm_num) (by norm_num)
      rw [this]; norm_num
  · rintro ⟨d, θ, noise, hd0, hdr, hn0, hn1, hlat, hlon, hval⟩
    dsimp only at hlat hlon hval
    rw [mul_one] at hlat
    have hb := toFixed_eq_imp 4 (m := 377521) (by rw [← hlat]; norm_num)
    push_cast at hb
    have hd1 : (45041:ℚ)/20000 ≤ d := by nlinarith [hb.1]
    have harg : (55:ℚ) * (1 - d / 2.5) + noise ≤ 12955/1000 := by
      have heq : (55:ℚ) * (1 - d / 2.5) + noise = 55 - 22 * d + noise := by ring
      rw [heq]; linarith
    have hle : clamp575 (55 * (1 - d / 2.5) + noise) ≤ 12955/1000 :=
      le_trans (clamp575_le_max _) (max_le (by norm_num) harg)
    rw [← hval] at hle
    norm_num at hle

/-! ## C8: the background points -/

/-- Counterexample for C8 as stated: the claim says background-point
latitudes range over the whole interval `[20, 55]`, but the code draws
them as `25 + Math.random() * 25`, so no valid random stream ever yields
a background latitude of 20 (nor anything below 25).  Instantiated at
the concrete target latitude 20. -/
theorem C8_counterexample :
    ¬ (∀ t : ℚ, 20 ≤ t → t ≤ 55 →
        ∃ rand, validRand rand ∧ ∃ p ∈ backgroundPoints rand, p.lat = t) := by
  intro h
  obtain ⟨rand, hr, p, hp, hlat⟩ := h 20 le_rfl (by norm_num)
  have hb := (backgroundPoint_bounds hr hp).1
  rw [hlat] at hb
  norm_num at hb

/-- **C8 (amended)** The 150 fallback background points are scattered by
uniform draws over the sub-box latitude `[25, 50]` by longitude
`[-125, -70]` of the bounding box (not the whole box), with values in
`[5, 25]`. -/
theorem C8_background_points (rand : ℕ → ℚ) (hr : validRand rand) :
    (backgroundPoints rand).length = 150 ∧
    ∀ p ∈ backgroundPoints rand,
      25 ≤ p.lat ∧ p.lat ≤ 50 ∧ -125 ≤ p.lon ∧ p.lon ≤ -70 ∧
      5 ≤ p.value ∧ p.value ≤ 25 :=
  ⟨length_backgroundPoints rand, fun _ hp => backgroundPoint_bounds hr hp⟩

/-- Witness for C8 (amended) at a concrete random stream. -/
theorem C8_background_points_witness :
    (backgroundPoints (fun _ => 0)).length = 150 ∧
    ∀ p ∈ backgroundPoints (fun _ => 0),
      25 ≤ p.lat ∧ p.lat ≤ 50 ∧ -125 ≤ p.lon ∧ p.lon ≤ -70 ∧
      5 ≤ p.value ∧ p.value ≤ 25 :=
  C8_background_points (fun _ => 0) (by intro n; norm_num)

/-! ## C4: the live projector's value filter -/

/-- A sample emitted by the projector always originates from a grid cell
whose raw value passed the strict filter `5 < v < 80`; the stored value
is the raw value rounded to 1 decimal. -/
theorem mem_parseGRIB2Points {msg : GribMessage} {p : Sample}
    (hp : p ∈ parseGRIB2Points msg) :
    ∃ v : ℚ, 5 < v ∧ v < 80 ∧ p.value = toFixed 1 v := by
  unfold parseGRIB2Points at hp
  rw [List.mem_flatMap] at hp
  obtain ⟨j, _, hpf⟩ := hp
  rw [List.mem_filterMap] at hpf
  obtain ⟨i, _, hgi⟩ := hpf
  dsimp only at hgi
  split_ifs at hgi with h1 h2
  · obtain ⟨h5, h80⟩ := h2
    refine ⟨msg.data.getD (j * jsOr msg.ni 7000 + i) 0, h5, h80, ?_⟩
    cases hgi
    rfl

/-- Projection of a one-cell grid whose single value passes the filter. -/
theorem parseGRIB2Points_single (v : ℚ) (h5 : 5 < v) (h80 : v < 80) :
    parseGRIB2Points ⟨some 1, some 1, [v]⟩ = [⟨20, -130, toFixed 1 v⟩] := by
  have h20 : toFixed 4 (20:ℚ) = 20 := by
    have := toFixed_intCast 4 20; push_cast at this; exact this
  have h130 : toFixed 4 (-130:ℚ) = -130 := by
    have := toFixed_intCast 4 (-130); push_cast at this; exact this
  have hr1 : List.range 1 = [0] := rfl
  unfold parseGRIB2Points jsOr
  norm_num [hr1, h5, h80, h20, h130, List.flatMap_cons, List.flatMap_nil,
    List.filterMap_cons, List.filterMap_nil]

/-- **C4 (counterexample to the claim as stated)** The grid cell value
`79.96` passes the strict filter (`5 < 79.96 < 80`), yet the emitted
sample's stored value is `toFixed(1)`-rounded to exactly 80, so a live
sample CAN carry value `≥ 80`. -/
theorem C4_counterexample :
    (5 < (1999:ℚ)/25 ∧ (1999:ℚ)/25 < 80) ∧
    ∃ p ∈ parseGRIB2Points ⟨some 1, some 1, [1999/25]⟩, 80 ≤ p.value := by
  refine ⟨⟨by norm_num, by norm_num⟩, ⟨20, -130, 80⟩, ?_, by norm_num⟩
  have h := parseGRIB2Points_single (1999/25) (by norm_num) (by norm_num)
  have hv : toFixed 1 ((1999:ℚ)/25) = 80 := by
    have := toFixed_eval 1 ((1999:ℚ)/25) 800 (by norm_num) (by norm_num)
    rw [this]; norm_num
  rw [h, hv]
  exact List.mem_singleton.mpr rfl

/-- **C4 (amended)** For every Grid and every visited cell, the live
projector emits a Sample only if the cell's raw value v satisfies
5 < v < 80 (strict on both sides); cells at or outside the bounds are
dropped, not clamped.  The emitted value is the raw value rounded to 1
decimal place, hence lies in the closed interval [5, 80] and can land
exactly on a bound through rounding. -/
theorem C4_live_filter (msg : GribMessage) :
    ∀ p ∈ parseGRIB2Points msg,
      ∃ v : ℚ, 5 < v ∧ v < 80 ∧ p.value = toFixed 1 v ∧
        5 ≤ p.value ∧ p.value ≤ 80 := by
  intro p hp
  obtain ⟨v, h5, h80, hval⟩ := mem_parseGRIB2Points hp
  have hb := toFixed_bounds 1 (a := 5) (b := 80) (x := v)
    (by push_cast; linarith) (by push_cast; linarith)
  push_cast at hb
  rw [← hval] at hb
  exact ⟨v, h5, h80, hval, hb.1, hb.2⟩

/-- Witness for C4 (amended): a one-cell grid with value 10 emits the
sample `(20, -130, 10)`. -/
theorem C4_live_filter_witness :
    ∃ v : ℚ, 5 < v ∧ v < 80 ∧ (Sample.mk 20 (-130) 10).value = toFixed 1 v ∧
      5 ≤ (Sample.mk 20 (-130) 10).value ∧ (Sample.mk 20 (-130) 10).value ≤ 80 := by
  have h10 : toFixed 1 (10:ℚ) = 10 := by
    have := toFixed_intCast 1 10; push_cast at this; exact this
  have hmem : (Sample.mk 20 (-130) 10) ∈ parseGRIB2Points ⟨some 1, some 1, [10]⟩ := by
    rw [parseGRIB2Points_single 10 (by norm_num) (by norm_num), h10]
    exact List.mem_singleton.mpr rfl
  exact C4_live_filter ⟨some 1, some 1, [10]⟩ _ hmem

/-! ## C5: the scanner's selection rule -/

/-- In a `≤`-sorted list every element is at most the last element. -/
theorem sorted_le_getLast :
    ∀ {l : List String}, List.Sorted (· ≤ ·) l → ∀ (hne : l ≠ []) {x : String},
      x ∈ l → x ≤ l.getLast hne := by
  intro l
  induction l with
  | nil => intro _ hne; exact absurd rfl hne
  | cons a t ih =>
    intro hs hne x hx
    rw [List.sorted_cons] at hs
    cases t with
    | nil =>
      rw [List.mem_singleton] at hx
      subst hx
      exact le_of_eq rfl
    | cons b t2 =>
      rw [List.getLast_cons (List.cons_ne_nil b t2)]
      rcases List.mem_cons.mp hx with rfl | hx2
      · exact hs.1 _ (List.getLast_mem (List.cons_ne_nil b t2))
      · exact ih hs.2 (List.cons_ne_nil b t2) hx2

/-- **C5** Given a directory listing whose regex pass produced at least
one filename matching `PREFIX_<8-digit>-<6-digit>.grib2[.gz]`, the
scanner resolves the lexicographically greatest matching filename
(ascending sort, reverse, first element) and reports `isCompressed`
true iff that name ends in `.gz`. -/
theorem C5_scanner_selects_latest (env : Env) (files : List String)
    (hl : env.listing = .ok files) (hne : files ≠ [])
    (hpat : ∀ f ∈ files, matchesMRMSPattern f) :
    ∃ best : String,
      fetchLatestMRMSFile env = .ok ⟨best, jsEndsWithGz best⟩ ∧
      best ∈ files ∧ (∀ f ∈ files, f ≤ best) ∧
      (jsEndsWithGz best = true ↔ [ '.', 'g', 'z'] <:+ best.data) := by
  have hperm := List.perm_insertionSort (· ≤ ·) files
  have hsorted := List.sorted_insertionSort (· ≤ ·) files
  have hsne : List.insertionSort (· ≤ ·) files ≠ [] := by
    intro h
    have hlen := hperm.length_eq
    rw [h] at hlen
    exact hne (List.length_eq_zero.mp hlen.symm)
  have hhead : (List.insertionSort (· ≤ ·) files).reverse.headD "" =
      (List.insertionSort (· ≤ ·) files).getLast hsne := by
    rw [List.headD_eq_head?, List.head?_reverse,
      List.getLast?_eq_getLast_of_ne_nil hsne, Option.getD_some]
  refine ⟨(List.insertionSort (· ≤ ·) files).reverse.headD "", ?_, ?_, ?_, ?_⟩
  · unfold fetchLatestMRMSFile
    rw [hl]
    have hemp : files.isEmpty = false := by
      rw [Bool.eq_false_iff]
      intro h
      exact hne (List.isEmpty_iff.mp h)
    simp only [hemp, Bool.false_eq_true, if_false]
  · rw [hhead]
    exact hperm.subset (List.getLast_mem hsne)
  · intro f hf
    rw [hhead]
    exact sorted_le_getLast hsorted hsne (hperm.mem_iff.mpr hf)
  · exact List.isSuffixOf_iff_suffix

/-- Witness for C5: the spec's own scenario, a listing with one plain
and one `.gz`-compressed filename. -/
theorem C5_scanner_selects_latest_witness :
    ∃ best : String,
      fetchLatestMRMSFile
          ⟨Except.ok ["MRMS_ReflectivityAtLowestAltitude_20240101-000000.grib2",
                      "MRMS_ReflectivityAtLowestAltitude_20240101-000200.grib2.gz"],
           Except.ok [], fun b => Except.ok b, fun _ => Except.error "e",
           fun _ => 0, fun _ => 1, fun _ => 0, "t"⟩ =
        .ok ⟨best, jsEndsWithGz best⟩ ∧
      best ∈ ["MRMS_ReflectivityAtLowestAltitude_20240101-000000.grib2",
              "MRMS_ReflectivityAtLowestAltitude_20240101-000200.grib2.gz"] ∧
      (∀ f ∈ ["MRMS_ReflectivityAtLowestAltitude_20240101-000000.grib2",
              "MRMS_ReflectivityAtLowestAltitude_20240101-000200.grib2.gz"], f ≤ best) ∧
      (jsEndsWithGz best = true ↔ [ '.', 'g', 'z'] <:+ best.data) := by
  refine C5_scanner_selects_latest _ _ rfl (by decide) ?_
  intro f hf
  rcases List.mem_cons.mp hf with rfl | hf2
  · exact ⟨['2', '0', '2', '4', '0', '1', '0', '1'],
      ['0', '0', '0', '0', '0', '0'], "",
      by decide, by decide, by decide, by decide, Or.inl rfl, by decide⟩
  · rw [List.mem_singleton] at hf2
    subst hf2
    exact ⟨['2', '0', '2', '4', '0', '1', '0', '1'],
      ['0', '0', '0', '2', '0', '0'], ".gz",
      by decide, by decide, by decide, by decide, Or.inr rfl, by decide⟩

/-! ## C9: timestamp extraction never fails on a scanner-resolved name -/

/-- The leftmost-match scan succeeds whenever a match starts somewhere:
scanning a list with a matching tail is successful. -/
theorem findTs_append_isSome (l1 l2 : List Char) (h : (tsAt l2).isSome) :
    (findTs (l1 ++ l2)).isSome := by
  induction l1 with
  | nil =>
    rw [List.nil_append]
    cases l2 with
    | nil => exact absurd h (by simp [tsAt])
    | cons c rest =>
      unfold findTs
      cases hts : tsAt (c :: rest) with
      | some m => simp
      | none => rw [hts] at h; simp at h
  | cons c t ih =>
    rw [List.cons_append]
    unfold findTs
    cases hts : tsAt (c :: (t ++ l2)) with
    | some m => simp
    | none => exact ih

/-- **C9** Every filename matching the scanner's pattern contains a
`\d{8}-\d{6}` token, so `filename.match(/\d{8}-\d{6}/)` is non-null and
indexing `[0]` on it never throws. -/
theorem C9_timestamp_match (f : String) (h : matchesMRMSPattern f) :
    (jsMatchTimestamp f).isSome := by
  obtain ⟨d8, t6, suffix, h8, hd8, h6, ht6, _, hf⟩ := h
  subst hf
  unfold jsMatchTimestamp
  have htake : (d8 ++ ('-' :: (t6 ++ (".grib2" ++ suffix).data))).take 8 = d8 := by
    rw [← h8]
    exact List.take_left d8 _
  have hdrop : (d8 ++ ('-' :: (t6 ++ (".grib2" ++ suffix).data))).drop 8 =
      '-' :: (t6 ++ (".grib2" ++ suffix).data) := by
    rw [← h8]
    exact List.drop_left d8 _
  have hdrop9 : (d8 ++ ('-' :: (t6 ++ (".grib2" ++ suffix).data))).drop 9 =
      t6 ++ (".grib2" ++ suffix).data := by
    have h9 : (d8 ++ ('-' :: (t6 ++ (".grib2" ++ suffix).data))).drop 9 =
        ((d8 ++ ('-' :: (t6 ++ (".grib2" ++ suffix).data))).drop 8).drop 1 :=
      (List.drop_drop 1 8 _).symm
    rw [h9, hdrop]
    rfl
  have htake6 : (t6 ++ (".grib2" ++ suffix).data).take 6 = t6 := by
    rw [← h6]
    exact List.take_left t6 _
  have hts : (tsAt (d8 ++ ('-' :: (t6 ++ (".grib2" ++ suffix).data)))).isSome := by
    unfold tsAt
    rw [if_pos]
    · rfl
    · refine ⟨?_, ?_, ?_, ?_, ?_⟩
      · rw [htake]; exact h8
      · rw [htake, List.all_eq_true]; exact hd8
      · rw [hdrop]; rfl
      · rw [hdrop9, htake6]; exact h6
      · rw [hdrop9, htake6, List.all_eq_true]; exact ht6
  have hdata : ("MRMS_ReflectivityAtLowestAltitude_" ++ (⟨d8⟩ : String) ++ "-" ++
      (⟨t6⟩ : String) ++ ".grib2" ++ suffix).data =
      "MRMS_ReflectivityAtLowestAltitude_".data ++
        (d8 ++ ('-' :: (t6 ++ (".grib2" ++ suffix).data))) := by
    simp only [String.data_append, List.append_assoc]
    rfl
  rw [hdata]
  cases hfind : findTs ("MRMS_ReflectivityAtLowestAltitude_".data ++
      (d8 ++ ('-' :: (t6 ++ (".grib2" ++ suffix).data)))) with
  | some m => simp
  | none =>
    have := findTs_append_isSome "MRMS_ReflectivityAtLowestAltitude_".data _ hts
    rw [hfind] at this
    simp at this

/-- Witness for C9 at a concrete resolved filename. -/
theorem C9_timestamp_match_witness :
    (jsMatchTimestamp "MRMS_ReflectivityAtLowestAltitude_20240101-000000.grib2").isSome :=
  C9_timestamp_match _
    ⟨['2', '0', '2', '4', '0', '1', '0', '1'], ['0', '0', '0', '0', '0', '0'], "",
      by decide, by decide, by decide, by decide, Or.inl rfl, by decide⟩

/-! ## C3: cache-hit behaviour of the radar handler -/

/-- **C3** When a snapshot is cached and fewer than 120,000 ms have
elapsed, the handler returns the cached snapshot and leaves the state
untouched, for EVERY environment — the universal quantification over
`env` expresses that no stage of the pipeline (scanner, fetcher,
decoder, generator) is consulted and the cache slot is not
overwritten. -/
theorem C3_cache_hit (env : Env) (st : ServerState) (now : ℤ) (snap : Snapshot)
    (hc : st.cachedData = some snap) (hfresh : now - st.lastFetchTime < 120000) :
    radarHandler env st now = (snap, st) := by
  obtain ⟨cd, lft⟩ := st
  dsimp only at hc hfresh
  subst hc
  unfold radarHandler
  dsimp only
  rw [if_pos]
  exact hfresh

/-- Witness for C3 at a concrete cached state, 1 second after the
fetch. -/
theorem C3_cache_hit_witness :
    radarHandler
        ⟨Except.error (), Except.error (), fun b => Except.ok b,
         fun _ => Except.error "e", fun _ => 0, fun _ => 1, fun _ => 0, "t"⟩
        ⟨some ⟨"20240101-000000", JSData.arr [], some 0, "MRMS RALA (Live)"⟩, 0⟩
        1000 =
      (⟨"20240101-000000", JSData.arr [], some 0, "MRMS RALA (Live)"⟩,
       ⟨some ⟨"20240101-000000", JSData.arr [], some 0, "MRMS RALA (Live)"⟩, 0⟩) :=
  C3_cache_hit _ _ 1000 _ rfl (by decide)

/-! ## C1 and C2: what the live path actually stores

Server.js line 208 reads `radarPoints = parseGRIB2Buffer(buffer);` with
no `await` on an `async` function, so on the live path `radarPoints` is
a Promise object: its `.length` is `undefined` and its rejection (a
GRIB2 decode failure) never reaches the handler's `catch`. -/

/-- An environment in which every pipeline stage succeeds: one matching
file in the listing, transport fine, and the decoder returns a one-cell
grid with value 10. -/
def envLiveOk : Env :=
  ⟨Except.ok ["MRMS_ReflectivityAtLowestAltitude_20240101-000000.grib2"],
   Except.ok [], fun b => Except.ok b,
   fun _ => Except.ok [⟨some 1, some 1, [10]⟩],
   fun _ => 0, fun _ => 1, fun _ => 0, "fallbackTime"⟩

/-- **C1 (code bug)** On a fully successful live run the served snapshot
has `count = undefined` (`none`) — not the length of a sample sequence —
and its `data` field is a Promise object, not an array of samples:
`parseGRIB2Buffer` is called without `await` (server.js line 208), so
`radarPoints.length` is `undefined`.  This contradicts the documented
invariant `count = samples.length`. -/
theorem C1_code_bug :
    (radarHandler envLiveOk ⟨none, 0⟩ 0).1.count = none ∧
    (radarHandler envLiveOk ⟨none, 0⟩ 0).1.source = "MRMS RALA (Live)" ∧
    ∃ pending, (radarHandler envLiveOk ⟨none, 0⟩ 0).1.data = JSData.promise pending :=
  ⟨rfl, rfl, ⟨_, rfl⟩⟩

/-- Same environment as `envLiveOk` except that the GRIB2 decoder
rejects the buffer. -/
def envDecodeFail : Env :=
  ⟨Except.ok ["MRMS_ReflectivityAtLowestAltitude_20240101-000000.grib2"],
   Except.ok [], fun b => Except.ok b,
   fun _ => Except.error "boom",
   fun _ => 0, fun _ => 1, fun _ => 0, "fallbackTime"⟩

/-- **C2 (code bug)** When the GRIB2 decode fails, the handler does NOT
fall back: because the `async` `parseGRIB2Buffer` is not awaited, its
rejection never reaches the `catch`, and the client receives a snapshot
still labeled `MRMS RALA (Live)` whose `data` holds the rejected
promise.  The Fallback Generator is not invoked (the data is not an
array). -/
theorem C2_code_bug :
    (radarHandler envDecodeFail ⟨none, 0⟩ 0).1.source = "MRMS RALA (Live)" ∧
    (radarHandler envDecodeFail ⟨none, 0⟩ 0).1.data =
      JSData.promise (Except.error "Failed to parse GRIB2 data: boom") ∧
    (radarHandler envDecodeFail ⟨none, 0⟩ 0).1.source ≠ "Generated (MRMS unavailable)" ∧
    ∀ samples, (radarHandler envDecodeFail ⟨none, 0⟩ 0).1.data ≠ JSData.arr samples := by
  have hdata : (radarHandler envDecodeFail ⟨none, 0⟩ 0).1.data =
      JSData.promise (Except.error "Failed to parse GRIB2 data: boom") := rfl
  refine ⟨rfl, hdata, by decide, ?_⟩
  intro samples h
  rw [hdata] at h
  exact JSData.noConfusion h

/-! ## C10: the health endpoint is read-only -/

/-- **C10** `GET /api/health` never modifies the cache state: the state
component of the handler's result is the input state, `cached` reports
snapshot presence, and `cacheAge` is `floor((now - lastFetchTime)/1000)`
seconds when a snapshot is cached and `null` otherwise. -/
theorem C10_health_read_only (st : ServerState) (now : ℤ) (nowIso : String) :
    (healthHandler st now nowIso).2 = st ∧
    (healthHandler st now nowIso).1.cached = st.cachedData.isSome ∧
    (healthHandler st now nowIso).1.cacheAge =
      (if st.cachedData.isSome
       then some ⌊((now - st.lastFetchTime : ℤ) : ℚ) / 1000⌋
       else none) :=
  ⟨rfl, rfl, rfl⟩

end WeatherRadar
